import Mathlib

/-!
Formal model of the T1_TP MQTT v3.1.1 broker.

Shallow embedding of the broker's packet codec, persistence layer and
connection loops. Byte streams are modelled as `List Nat` (each element a
byte value `< 256`); Rust `Result` is `Except`; reading from an exhausted
cursor surfaces as an error value, and Rust panics are represented by
explicit `panicked` outcomes. Each definition follows the Rust item of the
same name; definitions whose Rust source is not part of the provided tree
are marked `Modelled from the spec:` in their doc comment.
-/

set_option linter.unusedVariables false

set_option maxRecDepth 8000

deriving instance DecidableEq for Except

/-- Error kinds of `packets::packet_error::ErrorKind` (the module itself is
not among the provided sources; the kind list is the one the spec gives in
§4.1, plus `generic` for `PacketError::new` / `new_msg`, which attach no
specific kind). -/
inductive ErrorKind
  | invalidControlPacketType
  | invalidFlags
  | invalidProtocol
  | invalidProtocolLevel
  | malformedLength
  | invalidUtf8
  | generic
deriving DecidableEq, Repr

/-- Mirrors `PacketError`: a message plus an error kind. -/
structure PacketError where
  msg : String
  kind : ErrorKind
deriving DecidableEq, Repr

/-- `PacketError::new()`. -/
def PacketError.new : PacketError := { msg := "", kind := ErrorKind.generic }

/-- `PacketError::new_kind(msg, kind)`. -/
def PacketError.new_kind (msg : String) (kind : ErrorKind) : PacketError :=
  { msg := msg, kind := kind }

/-- `PacketError::new_msg(msg)`. -/
def PacketError.new_msg (msg : String) : PacketError :=
  { msg := msg, kind := ErrorKind.generic }

/-- `PacketError::from(io::Error)`: reading past the end of a cursor. -/
def PacketError.ioError : PacketError := { msg := "io error", kind := ErrorKind.generic }

/-- Modelled from the spec: UTF-8 validity of a byte sequence. The spec
(§4.1) states that fields containing null `U+0000` or non-shortest-form
UTF-8 are rejected; this is standard UTF-8 validity (shortest form, no
surrogates) with the extra rejection of the null byte. -/
def utf8Valid : List Nat → Bool
  | [] => true
  | b :: rest =>
    if b = 0 then false
    else if b < 0x80 then utf8Valid rest
    else if b < 0xC2 then false
    else if b < 0xE0 then
      match rest with
      | c1 :: rest2 => (0x80 ≤ c1 && c1 < 0xC0) && utf8Valid rest2
      | [] => false
    else if b < 0xF0 then
      match rest with
      | c1 :: c2 :: rest2 =>
        (0x80 ≤ c1 && c1 < 0xC0) && (0x80 ≤ c2 && c2 < 0xC0) &&
        (!(b = 0xE0 && c1 < 0xA0)) && (!(b = 0xED && 0xA0 ≤ c1)) &&
        utf8Valid rest2
      | _ => false
    else if b ≤ 0xF4 then
      match rest with
      | c1 :: c2 :: c3 :: rest2 =>
        (0x80 ≤ c1 && c1 < 0xC0) && (0x80 ≤ c2 && c2 < 0xC0) && (0x80 ≤ c3 && c3 < 0xC0) &&
        (!(b = 0xF0 && c1 < 0x90)) && (!(b = 0xF4 && 0x90 ≤ c1)) &&
        utf8Valid rest2
      | _ => false
    else false

/-- Modelled from the spec: `utf8::Field::new_from_stream` (the `utf8`
module is not among the provided sources). Per the spec (§4.1), a UTF-8
field is a 2-byte big-endian length followed by that many bytes; invalid
UTF-8 content is rejected (`None`). Returns the field's bytes and the rest
of the stream. -/
def Field.new_from_stream (bs : List Nat) : Option (List Nat × List Nat) :=
  match bs with
  | l1 :: l2 :: rest =>
    let len := l1 * 256 + l2
    if rest.length < len then none
    else if utf8Valid (rest.take len) then some (rest.take len, rest.drop len)
    else none
  | _ => none

/-- Modelled from the spec: the remaining-length varint decoding loop of
`packet_reader` (the module is not among the provided sources). Per the
spec (§4.1): 1–4 bytes, 7 data bits per byte, MSB = continuation; running
out of the 4-byte budget (values above 268435455) is a malformed length,
running out of input is an io error. Returns the decoded length and the
unread rest of the stream. -/
def decodeRemainingLengthAux : Nat → Nat → Nat → List Nat → Except PacketError (Nat × List Nat)
  | 0, _, _, _ => .error (PacketError.new_kind "Malformed remaining length" ErrorKind.malformedLength)
  | _ + 1, acc, mult, [] => .error PacketError.ioError
  | fuel + 1, acc, mult, b :: rest =>
    let acc2 := acc + (b &&& 127) * mult
    if b &&& 128 ≠ 0 then decodeRemainingLengthAux fuel acc2 (mult * 128) rest
    else .ok (acc2, rest)

/-- Modelled from the spec: `packet_reader::read_packet_bytes(fixed_header, stream)`.
The second fixed-header byte is the first remaining-length byte; further
varint bytes and then exactly `remaining length` packet-body bytes are
taken from the stream. Returns the packet body. -/
def read_packet_bytes (header_len_byte : Nat) (stream : List Nat) : Except PacketError (List Nat) :=
  match decodeRemainingLengthAux 4 0 1 (header_len_byte :: stream) with
  | .error e => .error e
  | .ok (len, rest) =>
    if rest.length < len then .error PacketError.ioError
    else .ok (rest.take len)

/-- Modelled from the spec: `packet_reader::read_remaining_bytes(stream)`
(used by `PingReq::read_from`; the module is not among the provided
sources). Decodes the remaining-length varint from the stream and returns
exactly that many following bytes (the packet body). -/
def read_remaining_bytes (stream : List Nat) : Except PacketError (List Nat) :=
  match decodeRemainingLengthAux 4 0 1 stream with
  | .error e => .error e
  | .ok (len, rest) =>
    if rest.length < len then .error PacketError.ioError
    else .ok (rest.take len)

namespace ServerPackets

/-- Connect flags, `src/server/src/packets/connect.rs` lines 17–24. -/
def RESERVED : Nat := 0x1

def CLEAN_SESSION : Nat := 0x2

def WILL_FLAG : Nat := 0x4

def WILL_QOS_0 : Nat := 0x8

def WILL_QOS_1 : Nat := 0x10

def WILL_RETAIN : Nat := 0x20

def PASSWORD_FLAG : Nat := 0x40

def USERNAME_FLAG : Nat := 0x80

def PROTOCOL_LEVEL : Nat := 4

/-- `QoSLevel` of `src/server/src/packets/connect.rs` (two levels only). -/
inductive QoSLevel
  | qosLevel0
  | qosLevel1
deriving DecidableEq, Repr

/-- `LastWill` of `src/server/src/packets/connect.rs`; strings are carried
as their byte lists. -/
structure LastWill where
  retain : Bool
  qos : QoSLevel
  topic : List Nat
  message : List Nat
deriving DecidableEq, Repr

/-- `Connect` of `src/server/src/packets/connect.rs`; strings are carried
as their byte lists. -/
structure Connect where
  client_id : List Nat
  clean_session : Bool
  user_name : Option (List Nat)
  password : Option (List Nat)
  last_will : Option LastWill
  keep_alive : Nat
deriving DecidableEq, Repr

/-- The four bytes of the protocol name `"MQTT"`. -/
def mqttBytes : List Nat := [77, 81, 84, 84]

/-- `Connect::verify_protocol` (connect.rs 53–62). -/
def Connect.verify_protocol (bs : List Nat) : Except PacketError (List Nat) :=
  match Field.new_from_stream bs with
  | some (v, rest) =>
    if v ≠ mqttBytes then .error (PacketError.new_kind "Invalid protocol" ErrorKind.invalidProtocol)
    else .ok rest
  | none => .error PacketError.new

/-- `Connect::verify_protocol_level` (connect.rs 64–74). -/
def Connect.verify_protocol_level (bs : List Nat) : Except PacketError (List Nat) :=
  match bs with
  | [] => .error PacketError.ioError
  | b :: rest =>
    if b ≠ PROTOCOL_LEVEL then
      .error (PacketError.new_kind "Invalid protocol level" ErrorKind.invalidProtocolLevel)
    else .ok rest

/-- `Connect::get_will(buf)` (connect.rs 76–97): given the flags byte, the
optional last will skeleton. The stored QoS is taken from the single bit
`WILL_QOS_0` (0x08): it is `qosLevel0` exactly when that bit is clear. -/
def Connect.get_will (b : Nat) : Except PacketError (Option LastWill) :=
  if b &&& WILL_FLAG != 0 then
    .ok (some
      { retain := b &&& WILL_RETAIN != 0
        qos := if b &&& WILL_QOS_0 == 0 then QoSLevel.qosLevel0 else QoSLevel.qosLevel1
        topic := []
        message := [] })
  else if b &&& WILL_QOS_0 != 0 || b &&& WILL_QOS_1 != 0 || b &&& WILL_RETAIN != 0 then
    .error (PacketError.new_kind "Invalid flags" ErrorKind.invalidFlags)
  else
    .ok none

/-- `Connect::get_flags` (connect.rs 99–126): reads the flags byte; a set
reserved bit (bit 0) is an `InvalidFlags` error. -/
def Connect.get_flags (bs : List Nat) : Except PacketError (Connect × List Nat) :=
  match bs with
  | [] => .error PacketError.ioError
  | b :: rest =>
    if b &&& RESERVED != 0 then
      .error (PacketError.new_kind "Reserved bits are not zero" ErrorKind.invalidFlags)
    else
      match Connect.get_will b with
      | .error e => .error e
      | .ok lw =>
        .ok
          ({ client_id := []
             clean_session := b &&& CLEAN_SESSION != 0
             user_name := if b &&& USERNAME_FLAG != 0 then some [] else none
             password := if b &&& PASSWORD_FLAG != 0 then some [] else none
             last_will := lw
             keep_alive := 0 }, rest)

/-- `Connect::get_keepalive` (connect.rs 128–133): two big-endian bytes. -/
def Connect.get_keepalive (c : Connect) (bs : List Nat) : Except PacketError (Connect × List Nat) :=
  match bs with
  | b1 :: b2 :: rest => .ok ({ c with keep_alive := b1 * 256 + b2 }, rest)
  | _ => .error PacketError.ioError

/-- `Connect::get_clientid` (connect.rs 135–139). -/
def Connect.get_clientid (c : Connect) (bs : List Nat) : Except PacketError (Connect × List Nat) :=
  match Field.new_from_stream bs with
  | none => .error PacketError.new
  | some (v, rest) => .ok ({ c with client_id := v }, rest)

/-- `Connect::get_will_data` (connect.rs 141–149): topic and message
fields, read only when the will flag was set. -/
def Connect.get_will_data (c : Connect) (bs : List Nat) : Except PacketError (Connect × List Nat) :=
  match c.last_will with
  | none => .ok (c, bs)
  | some lw =>
    match Field.new_from_stream bs with
    | none => .error PacketError.new
    | some (topicV, r1) =>
      match Field.new_from_stream r1 with
      | none => .error PacketError.new
      | some (msgV, r2) =>
        .ok ({ c with last_will := some { lw with topic := topicV, message := msgV } }, r2)

/-- `Connect::get_auth` (connect.rs 151–161): user name field when the
username flag was set, then password field when the password flag was set. -/
def Connect.get_auth (c : Connect) (bs : List Nat) : Except PacketError (Connect × List Nat) :=
  match c.user_name with
  | some _ =>
    match Field.new_from_stream bs with
    | none => .error PacketError.new
    | some (u, r1) =>
      match c.password with
      | some _ =>
        match Field.new_from_stream r1 with
        | none => .error PacketError.new
        | some (p, r2) => .ok ({ c with user_name := some u, password := some p }, r2)
      | none => .ok ({ c with user_name := some u }, r1)
  | none =>
    match c.password with
    | some _ =>
      match Field.new_from_stream bs with
      | none => .error PacketError.new
      | some (p, r1) => .ok ({ c with password := some p }, r1)
    | none => .ok (c, bs)

/-- The field-parsing pipeline of `Connect::new` (connect.rs 166–172): the
seven parsing steps threaded over the packet-body cursor, returning the
parsed `Connect` and the unread remainder of the body. -/
def connectParseFields (body : List Nat) : Except PacketError (Connect × List Nat) :=
  match Connect.verify_protocol body with
  | .error e => .error e
  | .ok r1 =>
  match Connect.verify_protocol_level r1 with
  | .error e => .error e
  | .ok r2 =>
  match Connect.get_flags r2 with
  | .error e => .error e
  | .ok (c1, r3) =>
  match Connect.get_keepalive c1 r3 with
  | .error e => .error e
  | .ok (c2, r4) =>
  match Connect.get_clientid c2 r4 with
  | .error e => .error e
  | .ok (c3, r5) =>
  match Connect.get_will_data c3 r5 with
  | .error e => .error e
  | .ok (c4, r6) =>
  match Connect.get_auth c4 r6 with
  | .error e => .error e
  | .ok (c5, r7) => .ok (c5, r7)

/-- `Connect::new(fixed_header, stream)` (connect.rs 163–184): reads the
packet body, runs the field pipeline, then checks that the body was
consumed exactly — a leftover byte (`bytes.read` returning `Ok(1)`) is an
error. -/
def Connect.new (fixed_header : Nat × Nat) (stream : List Nat) : Except PacketError Connect :=
  match read_packet_bytes fixed_header.2 stream with
  | .error e => .error e
  | .ok body =>
    match connectParseFields body with
    | .error e => .error e
    | .ok (ret, rest) =>
      match rest with
      | _ :: _ => .error PacketError.new
      | [] => .ok ret

end ServerPackets

namespace ServerPacketsPing

/-- Constants of `src/server/src/server_packets/pingreq.rs` lines 9–15. -/
def PINGREQ_PACKET_TYPE : Nat := 0b11000000

def PACKET_TYPE_MASK : Nat := 0b11110000

def RESERVED_BYTES_MASK : Nat := 0b00001111

def RESERVED_BYTES : Nat := 0b00000000

/-- `PingReq` of `src/server/src/server_packets/pingreq.rs` (no fields). -/
structure PingReq
deriving DecidableEq, Repr

/-- `PingReq::check_packet_type` (pingreq.rs 47–56). -/
def PingReq.check_packet_type (control_byte : Nat) : Except PacketError Unit :=
  if control_byte &&& PACKET_TYPE_MASK != PINGREQ_PACKET_TYPE then
    .error (PacketError.new_kind "Tipo de paquete invalido" ErrorKind.invalidControlPacketType)
  else .ok ()

/-- `PingReq::check_reserved_bytes` (pingreq.rs 59–67). -/
def PingReq.check_reserved_bytes (control_byte : Nat) : Except PacketError Unit :=
  if control_byte &&& RESERVED_BYTES_MASK != RESERVED_BYTES then
    .error (PacketError.new_msg "Los bytes reservados no coinciden con los esperados")
  else .ok ()

/-- `PingReq::read_from` (pingreq.rs 29–44): checks the packet type and the
reserved flags of the control byte, reads the packet body, and accepts
exactly when the body is empty (the 1-byte probe read hits end of cursor). -/
def PingReq.read_from (stream : List Nat) (control_byte : Nat) : Except PacketError PingReq :=
  match PingReq.check_packet_type control_byte with
  | .error e => .error e
  | .ok _ =>
    match PingReq.check_reserved_bytes control_byte with
    | .error e => .error e
    | .ok _ =>
      match read_remaining_bytes stream with
      | .error e => .error e
      | .ok bytes =>
        match bytes with
        | _ :: _ => .error (PacketError.new_msg "Se recibio PingReq con remaining_length != 0")
        | [] => .ok {}

end ServerPacketsPing

namespace CommonPackets

/-- `LastWill` of `src/common/packets/src/connect/mod.rs` lines 28–32. The
`TopicFilter` type is not among the provided sources; per the spec (§3) a
topic filter is a UTF-8 string (with optional wildcards), so it is carried
here as a `String`. -/
structure LastWill where
  retain_flag : Bool
  topic : String
  topic_message : String
deriving DecidableEq, Repr

/-- `Connect` of `src/common/packets/src/connect/mod.rs` lines 44–52. -/
structure Connect where
  client_id : String
  clean_session : Bool
  user_name : Option String
  password : Option String
  last_will : Option LastWill
  keep_alive : Nat
deriving DecidableEq, Repr

/-- `Connect::set_id` (mod.rs 91–97): sets the client id only when the
current one is the empty string; otherwise silently does nothing. -/
def Connect.set_id (c : Connect) (id : String) : Connect :=
  if c.client_id.isEmpty then { c with client_id := id } else c

/-- `Connect::take_last_will` (mod.rs 80–84): the taken will and the
updated packet with `last_will := none`. -/
def Connect.take_last_will (c : Connect) : Option LastWill × Connect :=
  (c.last_will, { c with last_will := none })

end CommonPackets

namespace Broker

/-- `ServerErrorKind` of `src/server/src/server/server_error.rs` (the file
is not among the provided sources; the kinds are the spec's §7 taxonomy,
as used by the provided server modules, plus `systemTimeError` for the
`SystemTimeError` conversion and `other` for remaining conversions). -/
inductive ServerErrorKind
  | protocolViolation
  | connectionRefused
  | timeout
  | clientDisconnected
  | clientNotFound
  | repeatedId
  | dumpError
  | idle
  | systemTimeError
  | other
deriving DecidableEq, Repr

/-- A `ServerError`, reduced to its kind (the message plays no role in
control flow). -/
structure ServerError where
  kind : ServerErrorKind
deriving DecidableEq, Repr

/-- The control-packet types (`packets::helpers::PacketType`). -/
inductive PacketType
  | connect
  | connack
  | publish
  | puback
  | subscribe
  | suback
  | unsubscribe
  | unsuback
  | pingreq
  | pingresp
  | disconnect
deriving DecidableEq, Repr

/-- `MIN_ELAPSED_TIME` (`src/server/src/server/mod.rs` lines 44–47):
minimum time, in milliseconds, since the last sending of a packet for it
to be resent. -/
def MIN_ELAPSED_TIME : Option Nat := some 2000

/-- `UNACK_RESENDING_FREQ` (mod.rs line 40), in milliseconds. -/
def UNACK_RESENDING_FREQ : Nat := 500

/-- `ACCEPT_SLEEP_DUR` (mod.rs line 43), in milliseconds. -/
def ACCEPT_SLEEP_DUR : Nat := 100

/-- What one iteration of `Server::client_loop` decides to do. -/
inductive LoopStep
  | nextIteration (last_activity : Nat)
  | returnOk (gracefully : Bool)
  | returnErr (e : ServerError)
deriving DecidableEq, Repr

/-- One `client_loop` iteration's decision, together with the argument the
iteration passed to `send_unacknowledged` (`none` when it was not called). -/
structure IterTrace where
  step : LoopStep
  unacknowledged_arg : Option (Option Nat)
deriving DecidableEq, Repr

/-- One iteration of `Server::client_loop` (mod.rs 215–254). Inputs: the
session's keep-alive (`client.keep_alive()`), the `last_activity` instant,
the current instant `now` (both in milliseconds), the outcome of
`process_packet`, and the outcome of the `send_unacknowledged` call (used
only on the timeout path). On `Ok`, `last_activity` is refreshed and a
`Disconnect` returns gracefully, anything else `continue`s (skipping the
keep-alive check). On a `Timeout` error, `send_unacknowledged
MIN_ELAPSED_TIME` runs (its error propagates), then the keep-alive check:
`duration_since` fails when the clock went backwards, and an elapsed time
beyond the keep-alive returns ungracefully. Any other error returns
ungracefully at once. -/
def clientLoopIter (keep_alive_opt : Option Nat) (last_activity now : Nat)
    (process_result : Except ServerError PacketType)
    (unack_result : Except ServerError Unit) : IterTrace :=
  match process_result with
  | .ok pt =>
    if pt = PacketType.disconnect then { step := .returnOk true, unacknowledged_arg := none }
    else { step := .nextIteration now, unacknowledged_arg := none }
  | .error err =>
    if err.kind = ServerErrorKind.timeout then
      match unack_result with
      | .error e2 => { step := .returnErr e2, unacknowledged_arg := some MIN_ELAPSED_TIME }
      | .ok _ =>
        match keep_alive_opt with
        | some keep_alive =>
          if now < last_activity then
            { step := .returnErr { kind := ServerErrorKind.systemTimeError }
              unacknowledged_arg := some MIN_ELAPSED_TIME }
          else if keep_alive < now - last_activity then
            { step := .returnOk false, unacknowledged_arg := some MIN_ELAPSED_TIME }
          else
            { step := .nextIteration last_activity, unacknowledged_arg := some MIN_ELAPSED_TIME }
        | none => { step := .nextIteration last_activity, unacknowledged_arg := some MIN_ELAPSED_TIME }
    else { step := .returnOk false, unacknowledged_arg := none }

/-- Outcome of `Server::accept_client` as seen by `server_loop`. -/
inductive AcceptOutcome
  | accepted
  | idle
  | fatal (e : ServerError)
deriving DecidableEq, Repr

/-- What one iteration of `Server::server_loop` decides to do.
`breakThenShutdown` is the `break` out of the accept loop (after which
`self.shutdown()` runs); `returnErr` leaves `server_loop` at once with the
error (no shutdown path); `panicked` is the `.unwrap()` on
`duration_since` with a clock that went backwards. -/
inductive ServerLoopStep
  | continueLoop (time_last_dump : Nat)
  | breakThenShutdown
  | returnErr (e : ServerError)
  | panicked
deriving DecidableEq, Repr

/-- One iteration of the accept loop of `Server::server_loop` (mod.rs
372–393), entered with the shutdown flag unset. Inputs: the configured
dump info (path, interval), the time of the last dump and the current time,
the outcome of `accept_client` (per-connection errors inside `run_client`
are logged and absorbed), and the outcome of `self.dump()` (consulted only
when a dump is due). An accepted connection or an `Idle` error falls
through to the dump check; any other accept error `break`s. When dumping
is configured and `now - time_last_dump ≥ interval`, `self.dump()?` runs:
its error propagates out of `server_loop`. -/
def serverLoopIter (dump_info_opt : Option (String × Nat)) (time_last_dump now : Nat)
    (accept : AcceptOutcome) (dump_result : Except ServerError Unit) : ServerLoopStep :=
  match accept with
  | .fatal _ => .breakThenShutdown
  | _ =>
    match dump_info_opt with
    | none => .continueLoop time_last_dump
    | some dump_info =>
      if now < time_last_dump then .panicked
      else if dump_info.2 ≤ now - time_last_dump then
        match dump_result with
        | .error e => .returnErr e
        | .ok _ => .continueLoop now
      else .continueLoop time_last_dump

/-- A filesystem operation performed by the persistence code. -/
inductive FsOp
  | createDirAll (folder : String)
  | writeFile (path : String) (contents : String)
  | rename (src : String) (dst : String)
deriving DecidableEq, Repr

/-- Rust `std::path::MAIN_SEPARATOR` on the target platform. -/
def MAIN_SEPARATOR : Char := '/'

/-- Rust `str::rsplit_once`: splits at the last occurrence of `sep`,
returning the parts before and after it; `none` when `sep` does not occur. -/
def rsplit_once (s : String) (sep : Char) : Option (String × String) :=
  match (s.data.reverse).dropWhile (fun c => c != sep) with
  | [] => none
  | _ :: beforeRev =>
    some (String.mk beforeRev.reverse, String.mk ((s.data.reverse.takeWhile (fun c => c != sep)).reverse))

/-- Modelled from the spec: the snapshot text
`serde_json::to_string_pretty(json!(... two keys ...))` — a pretty-printed
JSON object with the two top-level keys (spec §6); the exact serde
rendering of the sub-documents is taken as input. -/
def to_string_pretty (th cm : String) : String :=
  "\x7b\n  \"topic_handler\": " ++ th ++ ",\n  \"clients_manager\": " ++ cm ++ "\n\x7d"

/-- `Server::dump` (`src/server/src/server/dump.rs` 79–99), as the list of
filesystem operations it performs. The two `serde_json::to_value`
serializations are inputs (their failures become `DumpError`s); with a
configured dump path, the parent folder (the part before the last
`MAIN_SEPARATOR`, when there is one) is created and the snapshot is
written to the dump path itself. I/O failures of the writes are not
modelled: the claims concern which operations `dump` performs. -/
def dump (dump_info_opt : Option (String × Nat))
    (topic_handler_json clients_manager_json : Except String String) :
    Except ServerError (List FsOp) :=
  match dump_info_opt with
  | none => .ok []
  | some dump_info =>
    match topic_handler_json with
    | .error _ => .error { kind := ServerErrorKind.dumpError }
    | .ok th =>
      match clients_manager_json with
      | .error _ => .error { kind := ServerErrorKind.dumpError }
      | .ok cm =>
        match rsplit_once dump_info.1 MAIN_SEPARATOR with
        | some (folder, _) =>
          .ok [FsOp.createDirAll folder, FsOp.writeFile dump_info.1 (to_string_pretty th cm)]
        | none => .ok [FsOp.writeFile dump_info.1 (to_string_pretty th cm)]

/-- Whether an operation is a rename. -/
def FsOp.is_rename : FsOp → Bool
  | .rename _ _ => true
  | _ => false

/-- Whether an operation writes to the given path. -/
def FsOp.writes_to (p : String) : FsOp → Bool
  | .writeFile q _ => q == p
  | _ => false

/-- No operation in the list is a rename or a write to `<path>.tmp`. -/
def tmp_rename_free (path : String) (ops : List FsOp) : Bool :=
  ops.all (fun op => !op.is_rename && !op.writes_to (path ++ ".tmp"))

/-- A `serde_json::Value`. -/
inductive Json
  | null
  | bool (b : Bool)
  | num (n : Int)
  | str (s : String)
  | arr (elems : List Json)
  | obj (entries : List (String × Json))

/-- `serde_json::Map::remove(key)` on an object's entry list: the value at
the first matching key together with the remaining entries. -/
def removeKey (entries : List (String × Json)) (key : String) : Option (Json × List (String × Json)) :=
  match entries with
  | [] => none
  | (k, v) :: rest =>
    if k = key then some (v, rest)
    else
      match removeKey rest key with
      | none => none
      | some (v2, rest2) => some (v2, (k, v) :: rest2)

/-- Outcome of `Server::restore_from_json`: success, an error return, or a
panic (`unwrap` on a missing key / `panic!` on a non-object document). -/
inductive RestoreOutcome (α β : Type)
  | ok (topic_handler : α) (clients_manager : β)
  | err (kind : ServerErrorKind)
  | panicked

/-- Whether the restore outcome is an error return. -/
def RestoreOutcome.is_err {α β : Type} : RestoreOutcome α β → Bool
  | .err _ => true
  | _ => false

/-- `Server::restore_from_json` (dump.rs 50–77). `parsed` is the result of
`serde_json::from_str` (`none` when parsing failed, which becomes a
`DumpError`). On an object document the two required keys are `remove`d
with `.unwrap()` — a missing key panics — and the two `from_value`
deserializations (inputs here) turn their failures into `DumpError`s. A
non-object document hits `panic!("Invalid json")`. -/
def restore_from_json {α β : Type} (parsed : Option Json)
    (from_value_th : Json → Except String α) (from_value_cm : Json → Except String β) :
    RestoreOutcome α β :=
  match parsed with
  | none => .err ServerErrorKind.dumpError
  | some (Json.obj entries) =>
    match removeKey entries "topic_handler" with
    | none => .panicked
    | some (thJson, rest1) =>
      match removeKey rest1 "clients_manager" with
      | none => .panicked
      | some (cmJson, _) =>
        match from_value_th thJson with
        | .error _ => .err ServerErrorKind.dumpError
        | .ok th =>
          match from_value_cm cmJson with
          | .error _ => .err ServerErrorKind.dumpError
          | .ok cm => .ok th cm
  | some _ => .panicked

/-- A `from_value` deserializer that always succeeds (used to instantiate
`restore_from_json` at concrete inputs). -/
def trivial_from_value : Json → Except String Unit :=
  fun _ => .ok ()

/-- Modelled from the spec: the `Publish` packet of `packets::publish`
(not among the provided sources). Per the spec (§3): flags `dup`, `qos`,
`retain`, a topic name, an optional packet id (required iff `qos > 0`) and
payload bytes. The QoS is carried as the wire-level number. -/
structure Publish where
  dup : Bool
  qos : Nat
  retain : Bool
  topic_name : String
  packet_id : Option Nat
  payload : List Nat
deriving DecidableEq, Repr

/-- Modelled from the spec: `Publish::set_max_qos` downgrades the packet's
QoS to at most the given level (spec §4.5: "downgrade `qos` to ≤ 1"). -/
def Publish.set_max_qos (p : Publish) (maxQos : Nat) : Publish :=
  { p with qos := min p.qos maxQos }

/-- `Puback` (spec §4.1: packet id only). `Puback::new(packet_id)` is its
constructor. -/
structure Puback where
  packet_id : Nat
deriving DecidableEq, Repr

/-- The actions `handle_publish` performs: the `Puback` sent back to the
publishing client (when any) and the packet handed to
`broadcast_publish`. -/
structure PublishActions where
  puback_sent : Option Puback
  broadcast : Publish
deriving DecidableEq, Repr

/-- `Server::handle_publish` (`src/server/src/server/packet_processing.rs`
154–166): downgrades the publish's QoS to at most 1, sends a `Puback` with
the publish's packet id to the publishing client exactly when the publish
carries one, and broadcasts the downgraded publish. -/
def handle_publish (publish : Publish) : PublishActions :=
  let publish2 := publish.set_max_qos 1
  { puback_sent :=
      match publish2.packet_id with
      | some pid => some { packet_id := pid }
      | none => none
    broadcast := publish2 }

end Broker

/-! ## Helper lemmas -/

/-- For bytes, the packet-type mask test of `PingReq` coincides with the
upper-nibble test, and the reserved-flags mask test with the lower-nibble
test. -/
theorem byte_nibble_masks :
    ∀ cb : Nat, cb < 256 → ((cb &&& 240 = 192) ↔ cb / 16 = 12) ∧ ((cb &&& 15 = 0) ↔ cb % 16 = 0) := by
  decide

/-- For bytes with the will flag set whose will-QoS bits carry the wire
value 2, `Connect::get_will` accepts and stores `qosLevel0`. -/
theorem get_will_qos2_eval :
    ∀ b : Nat, b < 256 → b &&& ServerPackets.WILL_FLAG ≠ 0 → b / 8 % 4 = 2 →
      ServerPackets.Connect.get_will b =
        .ok (some { retain := b &&& ServerPackets.WILL_RETAIN != 0
                    qos := ServerPackets.QoSLevel.qosLevel0
                    topic := []
                    message := [] }) := by
  decide

/-- A string never equals itself with `".tmp"` appended. -/
theorem string_beq_self_append_tmp (p : String) : (p == p ++ ".tmp") = false := by
  rw [beq_eq_false_iff_ne]
  intro h
  have h3 := congrArg String.data h
  simp at h3

/-- `removeKey` misses exactly when no entry has the key. -/
theorem removeKey_eq_none_of_not_mem (entries : List (String × Broker.Json)) (key : String)
    (h : ∀ p ∈ entries, p.1 ≠ key) : Broker.removeKey entries key = none := by
  induction entries with
  | nil => rfl
  | cons hd tl ih =>
    have hhd : hd.1 ≠ key := h hd (List.mem_cons_self hd tl)
    have htl : ∀ p ∈ tl, p.1 ≠ key := fun p hp => h p (List.mem_cons_of_mem hd hp)
    rw [Broker.removeKey]
    rw [if_neg hhd, ih htl]

/-- `removeKey` over an appended suffix that does not carry the key: the
suffix rides along unchanged. -/
theorem removeKey_append_of_not_mem (entries extra : List (String × Broker.Json)) (key : String)
    (hextra : ∀ p ∈ extra, p.1 ≠ key) :
    Broker.removeKey (entries ++ extra) key =
      match Broker.removeKey entries key with
      | none => none
      | some (v, rest) => some (v, rest ++ extra) := by
  induction entries with
  | nil =>
    simp only [List.nil_append]
    rw [removeKey_eq_none_of_not_mem extra key hextra]
    rfl
  | cons hd tl ih =>
    obtain ⟨k, v⟩ := hd
    by_cases hk : k = key
    · simp only [List.cons_append, Broker.removeKey, if_pos hk, List.append_eq]
    · simp only [List.cons_append, Broker.removeKey, if_neg hk, List.append_eq, ih]
      cases Broker.removeKey tl key with
      | none => rfl
      | some p => obtain ⟨v2, rest2⟩ := p; rfl

/-! ## Claim theorems -/

/-- C10: `Connect::set_id` assigns the given id only when the current
client id is the empty string; when it is non-empty, the whole `Connect`
value is left unchanged. -/
theorem connect_set_id_only_when_empty (c : CommonPackets.Connect) (id : String) :
    (c.client_id = "" → c.set_id id = { c with client_id := id }) ∧
    (c.client_id ≠ "" → c.set_id id = c) := by
  constructor
  · intro h
    have he : c.client_id.isEmpty = true := by
      rw [String.isEmpty_iff]; exact h
    simp [CommonPackets.Connect.set_id, he]
  · intro h
    have he : c.client_id.isEmpty = false := by
      rw [Bool.eq_false_iff]
      intro hc
      exact h ((String.isEmpty_iff c.client_id).mp hc)
    simp [CommonPackets.Connect.set_id, he]

/-- C10 witness: on an empty client id the id is assigned; packaged by the
main theorem at a concrete `Connect`. -/
theorem connect_set_id_only_when_empty_witness :
    CommonPackets.Connect.set_id
        { client_id := "", clean_session := true, user_name := none, password := none
          last_will := none, keep_alive := 30 } "generated" =
      { client_id := "generated", clean_session := true, user_name := none, password := none
        last_will := none, keep_alive := 30 } :=
  (connect_set_id_only_when_empty
      { client_id := "", clean_session := true, user_name := none, password := none
        last_will := none, keep_alive := 30 } "generated").1 rfl

/-- C5: `handle_publish` downgrades the publish's QoS to at most 1, sends
back a `Puback` carrying the publish's packet id exactly when the publish
carries one (equivalently, per the packet-id invariant, when `qos > 0`),
and broadcasts the downgraded publish. -/
theorem handle_publish_downgrades_and_acks (p : Broker.Publish)
    (hid : p.packet_id.isSome ↔ 0 < p.qos) :
    (Broker.handle_publish p).broadcast = p.set_max_qos 1 ∧
    (Broker.handle_publish p).broadcast.qos = min p.qos 1 ∧
    (Broker.handle_publish p).puback_sent = Option.map Broker.Puback.mk p.packet_id ∧
    ((Broker.handle_publish p).puback_sent.isSome ↔ 0 < p.qos) := by
  refine ⟨rfl, rfl, ?_, ?_⟩
  · cases hpid : p.packet_id with
    | none => simp [Broker.handle_publish, Broker.Publish.set_max_qos, hpid]
    | some pid => simp [Broker.handle_publish, Broker.Publish.set_max_qos, hpid]
  · rw [← hid]
    cases hpid : p.packet_id with
    | none => simp [Broker.handle_publish, Broker.Publish.set_max_qos, hpid]
    | some pid => simp [Broker.handle_publish, Broker.Publish.set_max_qos, hpid]

/-- C5 witness: a QoS-2 publish with packet id 5 is broadcast at QoS 1 and
acknowledged with a `Puback` for id 5. -/
theorem handle_publish_downgrades_and_acks_witness :
    (Broker.handle_publish
        { dup := false, qos := 2, retain := false, topic_name := "t", packet_id := some 5
          payload := [] }).broadcast.qos =
      min 2 1 ∧
    (Broker.handle_publish
        { dup := false, qos := 2, retain := false, topic_name := "t", packet_id := some 5
          payload := [] }).puback_sent =
      Option.map Broker.Puback.mk (some 5) :=
  ⟨(handle_publish_downgrades_and_acks
      { dup := false, qos := 2, retain := false, topic_name := "t", packet_id := some 5
        payload := [] } (by decide)).2.1,
   (handle_publish_downgrades_and_acks
      { dup := false, qos := 2, retain := false, topic_name := "t", packet_id := some 5
        payload := [] } (by decide)).2.2.1⟩

/-- C6: in `client_loop`, a `Timeout` error is never by itself fatal: the
iteration calls `send_unacknowledged` with the 2000 ms `MIN_ELAPSED_TIME`
threshold, and (when that call succeeds) it exits — with an ungraceful
disconnect — exactly when a keep-alive duration is set and the time since
the last successfully processed packet exceeds it; otherwise it continues
with `last_activity` unchanged. -/
theorem client_loop_timeout_not_fatal (keep_alive_opt : Option Nat) (last_activity now : Nat)
    (e : Broker.ServerError) (hkind : e.kind = Broker.ServerErrorKind.timeout)
    (hclock : last_activity ≤ now) :
    (Broker.clientLoopIter keep_alive_opt last_activity now (.error e) (.ok ())).unacknowledged_arg
        = some Broker.MIN_ELAPSED_TIME ∧
    Broker.MIN_ELAPSED_TIME = some 2000 ∧
    ((Broker.clientLoopIter keep_alive_opt last_activity now (.error e) (.ok ())).step
        = .returnOk false ↔ ∃ ka, keep_alive_opt = some ka ∧ ka < now - last_activity) ∧
    ((Broker.clientLoopIter keep_alive_opt last_activity now (.error e) (.ok ())).step
        = .returnOk false ∨
     (Broker.clientLoopIter keep_alive_opt last_activity now (.error e) (.ok ())).step
        = .nextIteration last_activity) := by
  have hnl : ¬ now < last_activity := Nat.not_lt.mpr hclock
  cases keep_alive_opt with
  | none =>
    have htrace : Broker.clientLoopIter none last_activity now (.error e) (.ok ()) =
        { step := .nextIteration last_activity
          unacknowledged_arg := some Broker.MIN_ELAPSED_TIME } := by
      simp [Broker.clientLoopIter, hkind]
    refine ⟨by rw [htrace], rfl, ?_, ?_⟩
    · rw [htrace]
      simp
    · right; rw [htrace]
  | some ka =>
    by_cases hka : ka < now - last_activity
    · have htrace : Broker.clientLoopIter (some ka) last_activity now (.error e) (.ok ()) =
          { step := .returnOk false
            unacknowledged_arg := some Broker.MIN_ELAPSED_TIME } := by
        simp [Broker.clientLoopIter, hkind, hnl, hka]
      refine ⟨by rw [htrace], rfl, ?_, ?_⟩
      · rw [htrace]
        constructor
        · intro _; exact ⟨ka, rfl, hka⟩
        · intro _; rfl
      · left; rw [htrace]
    · have htrace : Broker.clientLoopIter (some ka) last_activity now (.error e) (.ok ()) =
          { step := .nextIteration last_activity
            unacknowledged_arg := some Broker.MIN_ELAPSED_TIME } := by
        simp [Broker.clientLoopIter, hkind, hnl, hka]
      refine ⟨by rw [htrace], rfl, ?_, ?_⟩
      · rw [htrace]
        constructor
        · intro hc; exact absurd hc (by simp)
        · rintro ⟨ka2, hka2, hlt⟩
          cases Option.some.inj hka2
          exact absurd hlt hka
      · right; rw [htrace]

/-- C3 counterexample: the flags byte `0x14` has the will flag set and
will-QoS bits carrying the wire value 2; `Connect::get_will` accepts the
byte but stores QoS level 0, not 1 as claimed. -/
theorem connect_will_qos2_counterexample :
    20 &&& ServerPackets.WILL_FLAG ≠ 0 ∧ 20 / 8 % 4 = 2 ∧
    ServerPackets.Connect.get_will 20 =
      .ok (some { retain := false, qos := ServerPackets.QoSLevel.qosLevel0
                  topic := [], message := [] }) ∧
    ServerPackets.QoSLevel.qosLevel0 ≠ ServerPackets.QoSLevel.qosLevel1 := by
  decide

/-- C3 amended: for every flags byte with the will flag set whose will-QoS
bits carry the wire value 2, decoding accepts the byte and the stored
last-will QoS level is 0 — the stored level is the low bit of the wire
value, so wire QoS 2 is downgraded to 0, not to 1. -/
theorem connect_will_qos2_stored_as_qos0 (b : Nat) (hb : b < 256)
    (hwill : b &&& ServerPackets.WILL_FLAG ≠ 0) (hqos : b / 8 % 4 = 2) :
    ServerPackets.Connect.get_will b =
      .ok (some { retain := b &&& ServerPackets.WILL_RETAIN != 0
                  qos := ServerPackets.QoSLevel.qosLevel0
                  topic := [], message := [] }) :=
  get_will_qos2_eval b hb hwill hqos

/-- C3 witness: the amended theorem at the concrete flags byte `0x14`. -/
theorem connect_will_qos2_stored_as_qos0_witness :
    ServerPackets.Connect.get_will 20 =
      .ok (some { retain := 20 &&& ServerPackets.WILL_RETAIN != 0
                  qos := ServerPackets.QoSLevel.qosLevel0
                  topic := [], message := [] }) :=
  connect_will_qos2_stored_as_qos0 20 (by decide) (by decide) (by decide)

/-- C7: any connect-flags byte with bit 0 (the reserved bit) set makes
decoding fail with an `InvalidFlags` error — both at `get_flags` itself
and through the whole field pipeline after a well-formed protocol header —
so no `Connect` value is produced. -/
theorem connect_reserved_bit_rejected (b : Nat) (hb : b &&& ServerPackets.RESERVED ≠ 0) :
    (∀ rest, ServerPackets.Connect.get_flags (b :: rest) =
      .error (PacketError.new_kind "Reserved bits are not zero" ErrorKind.invalidFlags)) ∧
    (∀ tail, ServerPackets.connectParseFields (0 :: 4 :: 77 :: 81 :: 84 :: 84 :: 4 :: b :: tail) =
      .error (PacketError.new_kind "Reserved bits are not zero" ErrorKind.invalidFlags)) := by
  have hbby : (b &&& ServerPackets.RESERVED != 0) = true := by
    simpa using hb
  have hflags : ∀ rest, ServerPackets.Connect.get_flags (b :: rest) =
      .error (PacketError.new_kind "Reserved bits are not zero" ErrorKind.invalidFlags) := by
    intro rest
    simp [ServerPackets.Connect.get_flags, hbby]
  refine ⟨hflags, ?_⟩
  intro tail
  have hvalid : utf8Valid [77, 81, 84, 84] = true := by decide
  have hlen : ¬ (tail.length + 1 + 1 + 1 + 1 + 1 + 1 < 4) := by omega
  have hproto : ServerPackets.Connect.verify_protocol
      (0 :: 4 :: 77 :: 81 :: 84 :: 84 :: 4 :: b :: tail) = .ok (4 :: b :: tail) := by
    simp [ServerPackets.Connect.verify_protocol, Field.new_from_stream, ServerPackets.mqttBytes,
      hvalid, hlen]
  have hlevel : ServerPackets.Connect.verify_protocol_level (4 :: b :: tail) = .ok (b :: tail) := by
    simp [ServerPackets.Connect.verify_protocol_level, ServerPackets.PROTOCOL_LEVEL]
  simp only [ServerPackets.connectParseFields, hproto, hlevel, hflags tail]

/-- C7 witness: the main theorem at the flags byte 1 (only the reserved
bit set), with an empty remainder. -/
theorem connect_reserved_bit_rejected_witness :
    ServerPackets.Connect.get_flags [1] =
      .error (PacketError.new_kind "Reserved bits are not zero" ErrorKind.invalidFlags) :=
  (connect_reserved_bit_rejected 1 (by decide)).1 []

/-- C1 counterexample: with a dump configured (interval 5), the last dump
at time 0 and the current time 5, an idle accept iteration in which
`dump()` fails with a `DumpError` makes `server_loop` return the error —
the loop terminates instead of continuing to accept connections. -/
theorem server_loop_dump_error_counterexample :
    Broker.serverLoopIter (some ("dump.json", 5)) 0 5 Broker.AcceptOutcome.idle
        (.error { kind := Broker.ServerErrorKind.dumpError }) =
      Broker.ServerLoopStep.returnErr { kind := Broker.ServerErrorKind.dumpError } := by
  decide

/-- C1 amended: when a periodic dump is due and `dump()` fails, the error
propagates out of `server_loop` through the `?` operator: the accept loop
terminates with that error (the server thread logs it and exits), instead
of logging and continuing to serve; the shutdown path is not run. -/
theorem server_loop_dump_error_propagates (p : String) (interval time_last_dump now : Nat)
    (accept : Broker.AcceptOutcome) (e : Broker.ServerError)
    (haccept : accept = Broker.AcceptOutcome.accepted ∨ accept = Broker.AcceptOutcome.idle)
    (hclock : time_last_dump ≤ now) (hdue : interval ≤ now - time_last_dump) :
    Broker.serverLoopIter (some (p, interval)) time_last_dump now accept (.error e) =
      Broker.ServerLoopStep.returnErr e := by
  have hnl : ¬ now < time_last_dump := Nat.not_lt.mpr hclock
  rcases haccept with h | h <;> subst h <;>
    simp [Broker.serverLoopIter, hnl, hdue]

/-- C1 witness: the amended theorem at the counterexample's concrete
state, with an accepted connection instead of an idle poll. -/
theorem server_loop_dump_error_propagates_witness :
    Broker.serverLoopIter (some ("dump.json", 5)) 0 7 Broker.AcceptOutcome.accepted
        (.error { kind := Broker.ServerErrorKind.dumpError }) =
      Broker.ServerLoopStep.returnErr { kind := Broker.ServerErrorKind.dumpError } :=
  server_loop_dump_error_propagates "dump.json" 5 0 7 Broker.AcceptOutcome.accepted
    { kind := Broker.ServerErrorKind.dumpError } (Or.inl rfl) (by decide) (by decide)

/-- C2 counterexample: dumping to the concrete path `"srv/dump.json"`
creates the parent folder and writes the snapshot directly to the dump
path; no `.tmp` file is written and nothing is renamed. -/
theorem dump_writes_directly_counterexample :
    Broker.dump (some ("srv/dump.json", 5)) (.ok "TH") (.ok "CM") =
      .ok [Broker.FsOp.createDirAll "srv",
           Broker.FsOp.writeFile "srv/dump.json" (Broker.to_string_pretty "TH" "CM")] ∧
    Broker.tmp_rename_free "srv/dump.json"
      [Broker.FsOp.createDirAll "srv",
       Broker.FsOp.writeFile "srv/dump.json" (Broker.to_string_pretty "TH" "CM")] = true := by
  constructor
  · rfl
  · rfl

/-- C2 amended: every successful `dump` writes the pretty-printed snapshot
directly to the configured dump path (preceded by creating the parent
folder when the path contains a separator); it never writes a `<path>.tmp`
file and never renames, so the dump is not atomic in the claimed sense. -/
theorem dump_writes_directly_no_tmp_rename (p : String) (interval : Nat) (th cm : String)
    (ops : List Broker.FsOp)
    (hok : Broker.dump (some (p, interval)) (.ok th) (.ok cm) = .ok ops) :
    (ops = [Broker.FsOp.writeFile p (Broker.to_string_pretty th cm)] ∨
      ∃ folder filename, Broker.rsplit_once p Broker.MAIN_SEPARATOR = some (folder, filename) ∧
        ops = [Broker.FsOp.createDirAll folder,
               Broker.FsOp.writeFile p (Broker.to_string_pretty th cm)]) ∧
    Broker.tmp_rename_free p ops = true := by
  have hbeq : (p == p ++ ".tmp") = false := string_beq_self_append_tmp p
  rw [Broker.dump] at hok
  cases hsplit : Broker.rsplit_once p Broker.MAIN_SEPARATOR with
  | none =>
    rw [hsplit] at hok
    have hops : ops = [Broker.FsOp.writeFile p (Broker.to_string_pretty th cm)] :=
      (Except.ok.inj hok).symm
    subst hops
    refine ⟨Or.inl rfl, ?_⟩
    simp [Broker.tmp_rename_free, Broker.FsOp.is_rename, Broker.FsOp.writes_to, hbeq]
  | some pair =>
    obtain ⟨folder, filename⟩ := pair
    rw [hsplit] at hok
    have hops : ops = [Broker.FsOp.createDirAll folder,
        Broker.FsOp.writeFile p (Broker.to_string_pretty th cm)] :=
      (Except.ok.inj hok).symm
    subst hops
    refine ⟨Or.inr ⟨folder, filename, rfl, rfl⟩, ?_⟩
    simp [Broker.tmp_rename_free, Broker.FsOp.is_rename, Broker.FsOp.writes_to, hbeq]

/-- C2 witness: the amended theorem at a concrete dump path without a
separator: the only operation is the direct write to the dump path. -/
theorem dump_writes_directly_no_tmp_rename_witness :
    ([Broker.FsOp.writeFile "dump.json" (Broker.to_string_pretty "TH" "CM")] =
        [Broker.FsOp.writeFile "dump.json" (Broker.to_string_pretty "TH" "CM")] ∨
      ∃ folder filename,
        Broker.rsplit_once "dump.json" Broker.MAIN_SEPARATOR = some (folder, filename) ∧
        [Broker.FsOp.writeFile "dump.json" (Broker.to_string_pretty "TH" "CM")] =
          [Broker.FsOp.createDirAll folder,
           Broker.FsOp.writeFile "dump.json" (Broker.to_string_pretty "TH" "CM")]) ∧
    Broker.tmp_rename_free "dump.json"
      [Broker.FsOp.writeFile "dump.json" (Broker.to_string_pretty "TH" "CM")] = true :=
  dump_writes_directly_no_tmp_rename "dump.json" 5 "TH" "CM"
    [Broker.FsOp.writeFile "dump.json" (Broker.to_string_pretty "TH" "CM")] rfl

/-- C4 counterexample: a persisted object that has a `clients_manager`
entry but no `topic_handler` entry makes `restore_from_json` panic (the
`unwrap` on the missing key) instead of returning an error. -/
theorem restore_missing_key_counterexample :
    Broker.restore_from_json (some (Broker.Json.obj [("clients_manager", Broker.Json.null)]))
        Broker.trivial_from_value Broker.trivial_from_value =
      Broker.RestoreOutcome.panicked ∧
    Broker.RestoreOutcome.is_err
        (Broker.restore_from_json (some (Broker.Json.obj [("clients_manager", Broker.Json.null)]))
          Broker.trivial_from_value Broker.trivial_from_value) = false := by
  constructor
  · rfl
  · rfl

/-- C4 amended: when the persisted object misses the required
`topic_handler` key, or misses `clients_manager` after `topic_handler` is
removed, the restore panics (crashes on the `unwrap`) rather than
returning an error; unknown additional keys in the document are ignored —
appending entries with other keys never changes the restore outcome. -/
theorem restore_missing_key_panics_unknown_keys_ignored {α β : Type}
    (fvTh : Broker.Json → Except String α) (fvCm : Broker.Json → Except String β)
    (entries extra : List (String × Broker.Json))
    (hextra : ∀ q ∈ extra, q.1 ≠ "topic_handler" ∧ q.1 ≠ "clients_manager") :
    (Broker.removeKey entries "topic_handler" = none →
      Broker.restore_from_json (some (Broker.Json.obj entries)) fvTh fvCm =
        Broker.RestoreOutcome.panicked) ∧
    (∀ v rest, Broker.removeKey entries "topic_handler" = some (v, rest) →
      Broker.removeKey rest "clients_manager" = none →
      Broker.restore_from_json (some (Broker.Json.obj entries)) fvTh fvCm =
        Broker.RestoreOutcome.panicked) ∧
    (Broker.restore_from_json (some (Broker.Json.obj (entries ++ extra))) fvTh fvCm =
      Broker.restore_from_json (some (Broker.Json.obj entries)) fvTh fvCm) := by
  refine ⟨?_, ?_, ?_⟩
  · intro hmiss
    simp [Broker.restore_from_json, hmiss]
  · intro v rest hth hcm
    simp [Broker.restore_from_json, hth, hcm]
  · have hth := removeKey_append_of_not_mem entries extra "topic_handler"
      (fun q hq => (hextra q hq).1)
    cases h1 : Broker.removeKey entries "topic_handler" with
    | none =>
      have hthn : Broker.removeKey (entries ++ extra) "topic_handler" = none := by
        rw [hth, h1]
      simp [Broker.restore_from_json, hthn, h1]
    | some p1 =>
      obtain ⟨v1, rest1⟩ := p1
      have hths : Broker.removeKey (entries ++ extra) "topic_handler" =
          some (v1, rest1 ++ extra) := by
        rw [hth, h1]
      have hcm := removeKey_append_of_not_mem rest1 extra "clients_manager"
        (fun q hq => (hextra q hq).2)
      cases h2 : Broker.removeKey rest1 "clients_manager" with
      | none =>
        have hcmn : Broker.removeKey (rest1 ++ extra) "clients_manager" = none := by
          rw [hcm, h2]
        simp [Broker.restore_from_json, hths, h1, hcmn, h2]
      | some p2 =>
        obtain ⟨v2, rest2⟩ := p2
        have hcms : Broker.removeKey (rest1 ++ extra) "clients_manager" =
            some (v2, rest2 ++ extra) := by
          rw [hcm, h2]
        simp [Broker.restore_from_json, hths, h1, hcms, h2]

/-- C4 witness: the amended theorem applied to an object carrying only an
unknown key, which therefore panics on the missing `topic_handler`. -/
theorem restore_missing_key_panics_witness :
    Broker.restore_from_json (some (Broker.Json.obj [("extra", Broker.Json.null)]))
        Broker.trivial_from_value Broker.trivial_from_value =
      Broker.RestoreOutcome.panicked :=
  (restore_missing_key_panics_unknown_keys_ignored Broker.trivial_from_value
      Broker.trivial_from_value [("extra", Broker.Json.null)] []
      (fun q hq => absurd hq (List.not_mem_nil q))).1 rfl

/-- C8: `PingReq::read_from` returns `Ok` exactly when the control byte's
upper nibble is 12, its lower nibble (the reserved flags) is 0, and the
packet's remaining length is 0; a wrong packet type yields an
`InvalidControlPacketType` error, nonzero reserved flags yield an error,
and a nonzero remaining length yields an error. -/
theorem pingreq_read_from_spec (control_byte : Nat) (stream : List Nat) (hcb : control_byte < 256) :
    ((∃ p, ServerPacketsPing.PingReq.read_from stream control_byte = .ok p) ↔
      (control_byte / 16 = 12 ∧ control_byte % 16 = 0 ∧ read_remaining_bytes stream = .ok [])) ∧
    (control_byte / 16 ≠ 12 →
      ServerPacketsPing.PingReq.read_from stream control_byte =
        .error (PacketError.new_kind "Tipo de paquete invalido" ErrorKind.invalidControlPacketType)) ∧
    (control_byte / 16 = 12 → control_byte % 16 ≠ 0 →
      ServerPacketsPing.PingReq.read_from stream control_byte =
        .error (PacketError.new_msg "Los bytes reservados no coinciden con los esperados")) ∧
    (∀ bytes, read_remaining_bytes stream = .ok bytes → bytes ≠ [] →
      ∃ e, ServerPacketsPing.PingReq.read_from stream control_byte = .error e) := by
  have hm1 := (byte_nibble_masks control_byte hcb).1
  have hm2 := (byte_nibble_masks control_byte hcb).2
  by_cases h1 : control_byte / 16 = 12
  · by_cases h2 : control_byte % 16 = 0
    · have hb1 : (control_byte &&& ServerPacketsPing.PACKET_TYPE_MASK !=
          ServerPacketsPing.PINGREQ_PACKET_TYPE) = false := by
        show (control_byte &&& 240 != 192) = false
        simp [hm1.mpr h1]
      have hb2 : (control_byte &&& ServerPacketsPing.RESERVED_BYTES_MASK !=
          ServerPacketsPing.RESERVED_BYTES) = false := by
        show (control_byte &&& 15 != 0) = false
        simp [hm2.mpr h2]
      cases hrb : read_remaining_bytes stream with
      | error e =>
        have hrf : ServerPacketsPing.PingReq.read_from stream control_byte = .error e := by
          simp [ServerPacketsPing.PingReq.read_from, ServerPacketsPing.PingReq.check_packet_type,
            ServerPacketsPing.PingReq.check_reserved_bytes, hb1, hb2, hrb]
        refine ⟨?_, fun hc => absurd h1 hc, fun _ hc => absurd h2 hc, ?_⟩
        · constructor
          · rintro ⟨p, hp⟩
            rw [hrf] at hp
            cases hp
          · rintro ⟨_, _, hok⟩
            exact Except.noConfusion hok
        · intro bytes hbytes _
          exact Except.noConfusion hbytes
      | ok bytes =>
        cases bytes with
        | nil =>
          have hrf : ServerPacketsPing.PingReq.read_from stream control_byte = .ok {} := by
            simp [ServerPacketsPing.PingReq.read_from, ServerPacketsPing.PingReq.check_packet_type,
              ServerPacketsPing.PingReq.check_reserved_bytes, hb1, hb2, hrb]
          refine ⟨?_, fun hc => absurd h1 hc, fun _ hc => absurd h2 hc, ?_⟩
          · constructor
            · intro _
              exact ⟨h1, h2, rfl⟩
            · intro _
              exact ⟨{}, hrf⟩
          · intro bytes2 hbytes hne
            exact absurd (Except.ok.inj hbytes).symm hne
        | cons hd tl =>
          have hrf : ServerPacketsPing.PingReq.read_from stream control_byte =
              .error (PacketError.new_msg "Se recibio PingReq con remaining_length != 0") := by
            simp [ServerPacketsPing.PingReq.read_from, ServerPacketsPing.PingReq.check_packet_type,
              ServerPacketsPing.PingReq.check_reserved_bytes, hb1, hb2, hrb]
          refine ⟨?_, fun hc => absurd h1 hc, fun _ hc => absurd h2 hc, ?_⟩
          · constructor
            · rintro ⟨p, hp⟩
              rw [hrf] at hp
              exact Except.noConfusion hp
            · rintro ⟨_, _, hok⟩
              exact List.noConfusion (Except.ok.inj hok)
          · intro bytes2 hbytes hne
            exact ⟨_, hrf⟩
    · have hb1 : (control_byte &&& ServerPacketsPing.PACKET_TYPE_MASK !=
          ServerPacketsPing.PINGREQ_PACKET_TYPE) = false := by
        show (control_byte &&& 240 != 192) = false
        simp [hm1.mpr h1]
      have hb2 : (control_byte &&& ServerPacketsPing.RESERVED_BYTES_MASK !=
          ServerPacketsPing.RESERVED_BYTES) = true := by
        show (control_byte &&& 15 != 0) = true
        simp only [bne_iff_ne, ne_eq]
        intro hc
        exact h2 (hm2.mp hc)
      have hrf : ServerPacketsPing.PingReq.read_from stream control_byte =
          .error (PacketError.new_msg "Los bytes reservados no coinciden con los esperados") := by
        simp [ServerPacketsPing.PingReq.read_from, ServerPacketsPing.PingReq.check_packet_type,
          ServerPacketsPing.PingReq.check_reserved_bytes, hb1, hb2]
      refine ⟨?_, fun hc => absurd h1 hc, fun _ _ => hrf, ?_⟩
      · constructor
        · rintro ⟨p, hp⟩
          rw [hrf] at hp
          cases hp
        · rintro ⟨_, hc, _⟩
          exact absurd hc h2
      · intro bytes hbytes hne
        exact ⟨_, hrf⟩
  · have hb1 : (control_byte &&& ServerPacketsPing.PACKET_TYPE_MASK !=
        ServerPacketsPing.PINGREQ_PACKET_TYPE) = true := by
      show (control_byte &&& 240 != 192) = true
      simp only [bne_iff_ne, ne_eq]
      intro hc
      exact h1 (hm1.mp hc)
    have hrf : ServerPacketsPing.PingReq.read_from stream control_byte =
        .error (PacketError.new_kind "Tipo de paquete invalido" ErrorKind.invalidControlPacketType) := by
      simp [ServerPacketsPing.PingReq.read_from, ServerPacketsPing.PingReq.check_packet_type, hb1]
    refine ⟨?_, fun _ => hrf, fun hc _ => absurd hc h1, ?_⟩
    · constructor
      · rintro ⟨p, hp⟩
        rw [hrf] at hp
        cases hp
      · rintro ⟨hc, _, _⟩
        exact absurd hc h1
    · intro bytes hbytes hne
      exact ⟨_, hrf⟩

/-- C8 witness: the control byte `0xC0` with a remaining length of 0 is
accepted. -/
theorem pingreq_read_from_spec_witness :
    ∃ p, ServerPacketsPing.PingReq.read_from [0] 192 = .ok p :=
  (pingreq_read_from_spec 192 [0] (by decide)).1.mpr ⟨rfl, rfl, by decide⟩

/-- C9: `Connect::new` rejects over-long packet bodies — whenever the
field pipeline leaves at least one unread byte inside the declared
remaining length, decoding returns an error; and decoding succeeds only
when the body is consumed exactly. -/
theorem connect_new_exact_consumption (fh : Nat × Nat) (stream : List Nat) :
    (∀ body c rest, read_packet_bytes fh.2 stream = .ok body →
        ServerPackets.connectParseFields body = .ok (c, rest) → rest ≠ [] →
        ∃ e, ServerPackets.Connect.new fh stream = .error e) ∧
    (∀ c, ServerPackets.Connect.new fh stream = .ok c →
        ∃ body, read_packet_bytes fh.2 stream = .ok body ∧
          ServerPackets.connectParseFields body = .ok (c, [])) := by
  constructor
  · intro body c rest hbody hparse hne
    refine ⟨PacketError.new, ?_⟩
    simp only [ServerPackets.Connect.new, hbody, hparse]
    cases rest with
    | nil => exact absurd rfl hne
    | cons hd tl => rfl
  · intro c hok
    cases hbody : read_packet_bytes fh.2 stream with
    | error e =>
      rw [ServerPackets.Connect.new, hbody] at hok
      exact Except.noConfusion hok
    | ok body =>
      cases hparse : ServerPackets.connectParseFields body with
      | error e =>
        rw [ServerPackets.Connect.new, hbody] at hok
        simp only [hparse] at hok
        exact Except.noConfusion hok
      | ok pr =>
        obtain ⟨c2, rest⟩ := pr
        cases rest with
        | nil =>
          rw [ServerPackets.Connect.new, hbody] at hok
          simp only [hparse] at hok
          cases Except.ok.inj hok
          exact ⟨body, rfl, hparse⟩
        | cons hd tl =>
          rw [ServerPackets.Connect.new, hbody] at hok
          simp only [hparse] at hok
          exact Except.noConfusion hok

/-- C9 witness: a well-formed connect body padded with one extra byte
inside the declared remaining length (15) is rejected. -/
theorem connect_new_exact_consumption_witness :
    ∃ e, ServerPackets.Connect.new (16, 15)
        [0, 4, 77, 81, 84, 84, 4, 0, 0, 60, 0, 2, 105, 100, 7] = .error e :=
  (connect_new_exact_consumption (16, 15)
      [0, 4, 77, 81, 84, 84, 4, 0, 0, 60, 0, 2, 105, 100, 7]).1
    [0, 4, 77, 81, 84, 84, 4, 0, 0, 60, 0, 2, 105, 100, 7]
    { client_id := [105, 100], clean_session := false, user_name := none, password := none
      last_will := none, keep_alive := 60 }
    [7] (by decide) (by decide) (by decide)

/-- C6 witness: the main theorem at a concrete timeout iteration — keep
alive 1000 ms, last activity at 0, now 5000 — which resends with the
2000 ms threshold and exits ungracefully. -/
theorem client_loop_timeout_not_fatal_witness :
    (Broker.clientLoopIter (some 1000) 0 5000
        (.error { kind := Broker.ServerErrorKind.timeout }) (.ok ())).unacknowledged_arg =
      some Broker.MIN_ELAPSED_TIME :=
  (client_loop_timeout_not_fatal (some 1000) 0 5000
      { kind := Broker.ServerErrorKind.timeout } rfl (by decide)).1
